import Mathlib

/-!
Shallow embedding of the governed-query execution pipeline of `sql/query.py`
(the `query` and `query_download` Django views), together with theorems about
the claims of its specification.

External collaborators (the engine adapter returned by `get_engine`, the
privilege evaluator `query_priv_check`, the instance resolver `user_instances`,
the configuration provider `SysConfig`, the scheduler
`add_kill_conn_schedule`/`del_schedule`, the audit store `QueryLog`) are
modelled as an oracle environment `Env`: every call the pipeline makes to a
collaborator reads the corresponding `Env` field, and the pipeline records the
call in an event trace.  The pipeline's own control flow — the order of checks,
the early returns, the exception handlers, the audit-row computation — is
translated line by line from `sql/query.py`.
-/

namespace ArcheryQuery

/-- Python truthiness of an optional string (`if query_result.error:`):
`None` and the empty string are falsy. -/
def pyTruthy : Option String → Bool
  | none => false
  | some s => !(s == "")

/-- Python truthiness of an optional integer (`if thread_id:`):
`None` and `0` are falsy. -/
def pyTruthyInt : Option Int → Bool
  | none => false
  | some n => !(n == 0)

/-- Surrounding-whitespace strip over a character list. -/
def pyStrip (cs : List Char) : List Char :=
  ((cs.dropWhile Char.isWhitespace).reverse.dropWhile Char.isWhitespace).reverse

/-- Decimal digits to a natural number. -/
def digitsToNat (cs : List Char) : Nat :=
  cs.foldl (fun a c => a * 10 + (c.toNat - 48)) 0

/-- Python `int(s)` on a string: optional sign then decimal digits after
stripping surrounding whitespace; `none` models the `ValueError` raised on any
other string. -/
def pyInt (s : String) : Option Int :=
  match pyStrip s.data with
  | [] => none
  | c :: rest =>
    if c = '-' then
      if rest ≠ [] ∧ rest.all Char.isDigit then some (-(digitsToNat rest : Int))
      else none
    else if c = '+' then
      if rest ≠ [] ∧ rest.all Char.isDigit then some ((digitsToNat rest : Int))
      else none
    else if (c :: rest).all Char.isDigit then
      some ((digitsToNat (c :: rest) : Int))
    else none

/-- `re.match(r"^explain", sql_content.lower())`: case-insensitive `EXPLAIN`
prefix test (line 85 / line 277 of `sql/query.py`), written over the
character list so it evaluates by kernel reduction. -/
def isExplain (s : String) : Bool :=
  "explain".data.isPrefixOf (s.data.map Char.toLower)

/-- The fields of the adapter's `ResultSet` that the pipeline reads or writes:
rows, affected-row count, the optional error, and the masking metadata. -/
structure QueryResult where
  rows : List (List Int) := []
  affected_rows : Int := 0
  error : Option String := none
  mask_rule_hit : Bool := false
  is_masked : Bool := false
deriving DecidableEq, Repr

/-- The masking stage's result (`query_masking`): the masked rows plus a
masking-specific optional error. -/
structure MaskingResult where
  rows : List (List Int) := []
  error : Option String := none
deriving DecidableEq, Repr

/-- Observable calls the pipeline makes to its collaborators, in order. -/
inductive Event where
  | queryCheckCalled
  | privCheckCalled
  | filterSqlCalled (sql : String) (limit : Int)
  | replaceLimitCalled (sql : String) (limit : Int)
  | connectionOpened
  | killScheduleAdded
  | executeCalled (sql : String) (limit : Int)
  | killScheduleDeleted
  | maskQueryCalled
  | queryLogSaved (effect_row : Int) (query_type : String)
deriving DecidableEq, Repr

/-- What `result["data"]` holds when the view returns: nothing (`{}`), the
query result's `__dict__`, or the masking result's `__dict__`. -/
inductive ResultData where
  | empty
  | fromQuery (qr : QueryResult)
  | fromMasking (mr : MaskingResult)
deriving DecidableEq, Repr

/-- The rows the caller receives out of `result["data"]`. -/
def ResultData.rowList : ResultData → List (List Int)
  | .empty => []
  | .fromQuery qr => qr.rows
  | .fromMasking mr => mr.rows

/-- The structured `result` dict the view serialises: status, message, data,
and whether `seconds_behind_master` was added to the data. -/
structure ApiResult where
  status : Int
  msg : String
  data : ResultData
  sbmAdded : Bool := false
deriving DecidableEq, Repr

/-- Oracle for every external collaborator the pipeline calls.  Each field is
the answer that collaborator gives during this query attempt; `execOutcome`
and `maskOutcome` use `Except` so that the oracle can also make the call raise
(`.error`), modelling an exception crossing the adapter boundary. -/
structure Env where
  /-- `user_instances(request.user).get(instance_name=...)` succeeds. -/
  instanceFound : Bool
  /-- `query_check_info.get("bad_query")`. -/
  badQuery : Bool
  /-- `query_check_info.get("msg")`. -/
  checkMsg : String
  /-- `query_check_info.get("has_star")`. -/
  hasStar : Bool
  /-- `query_check_info["filtered_sql"]`. -/
  filteredSql : String
  /-- `config.get("disable_star")`. -/
  disableStar : Bool
  /-- `priv_check_info["status"]`. -/
  privStatus : Int
  /-- `priv_check_info["msg"]`. -/
  privMsg : String
  /-- `priv_check_info["data"]["limit_num"]`. -/
  privLimit : Int
  /-- `priv_check_info["data"]["priv_check"]`. -/
  privCheckFlag : Bool
  /-- `config.get("data_masking")`. -/
  dataMasking : Bool
  /-- `config.get("query_check")`. -/
  queryCheck : Bool
  /-- `config.get("download_limit")`. -/
  downloadLimit : Int
  /-- `query_engine.thread_id` after `get_connection`. -/
  threadId : Option Int
  /-- `query_engine.filter_sql(sql, limit_num)`. -/
  filterSql : String → Int → String
  /-- `replace_limit(sql_content, limit_num)` (download path). -/
  replaceLimitFn : String → Int → String
  /-- `query_engine.query(...)`: a result, or an exception it raises. -/
  execOutcome : Except String QueryResult
  /-- `query_engine.query_masking(...)`: a result, or an exception it raises. -/
  maskOutcome : Except String MaskingResult

/-- Lines 117-161 / 311-355 of `sql/query.py` up to (not including) the audit
write: the error / masking branching after execution returned `query_result`.
Returns the partial `result`, the events of the masking stage, and the final
state of the (possibly mutated) `query_result` object. -/
def maskStep (env : Env) (query_result : QueryResult) :
    ApiResult × List Event × QueryResult :=
  if pyTruthy query_result.error then
    ({ status := 1, msg := query_result.error.getD "", data := .empty },
     [], query_result)
  else if env.dataMasking then
    match env.maskOutcome with
    | .ok masking_result =>
      if pyTruthy masking_result.error then
        if env.queryCheck then
          ({ status := 1,
             msg := "数据脱敏异常：" ++ masking_result.error.getD "",
             data := .empty },
           [Event.maskQueryCalled], query_result)
        else
          ({ status := 0, msg := "ok",
             data := .fromQuery { query_result with error := none } },
           [Event.maskQueryCalled], { query_result with error := none })
      else
        ({ status := 0, msg := "ok", data := .fromMasking masking_result },
         [Event.maskQueryCalled], query_result)
    | .error m =>
      if env.queryCheck then
        ({ status := 1,
           msg := "数据脱敏异常，请联系管理员，错误信息：" ++ m,
           data := .empty },
         [Event.maskQueryCalled], query_result)
      else
        ({ status := 0, msg := "ok",
           data := .fromQuery { query_result with error := none } },
         [Event.maskQueryCalled], { query_result with error := none })
  else
    ({ status := 0, msg := "ok", data := .fromQuery query_result },
     [], query_result)

/-- Lines 162-173 / 356-367: the `effect_row` stored on the audit record,
computed from the current `limit_num` variable and the final `query_result`. -/
def auditEffectRow (limit_num : Int) (qr : QueryResult) : Int :=
  if pyTruthy qr.error then 0
  else if limit_num = 0 then qr.affected_rows
  else min limit_num qr.affected_rows

/-- Masking stage followed by the audit write (lines 117-187 / 311-381),
given that execution returned `query_result` normally. -/
def maskAndLog (limit_num : Int) (query_type : String) (env : Env)
    (query_result : QueryResult) : ApiResult × List Event :=
  match maskStep env query_result with
  | (res, mevs, qrF) =>
    let res := if pyTruthy qrF.error then res else { res with sbmAdded := true }
    (res, mevs ++ [Event.queryLogSaved (auditEffectRow limit_num qrF) query_type])

/-- Lines 90-187 / 284-381: open the connection, arm the kill-connection
schedule when `thread_id` is truthy, execute, delete the schedule, then mask
and write the audit record.  When `query_engine.query` raises, control jumps
straight to the outer `except` handler (lines 188-194 / 382-388): the
schedule deletion on line 115 / 309 is never reached on that path. -/
def execAndLog (sqlFinal : String) (limit_num : Int) (query_type : String)
    (env : Env) : ApiResult × List Event :=
  let armed := pyTruthyInt env.threadId
  let evs := Event.connectionOpened ::
    (if armed then [Event.killScheduleAdded] else [])
  match env.execOutcome with
  | .error m =>
    ({ status := 1, msg := "查询异常报错，错误信息：" ++ m, data := .empty },
     evs ++ [Event.executeCalled sqlFinal limit_num])
  | .ok query_result =>
    let evs := evs ++ [Event.executeCalled sqlFinal limit_num] ++
      (if armed then [Event.killScheduleDeleted] else [])
    match maskAndLog limit_num query_type env query_result with
    | (res, mevs) => (res, evs ++ mevs)

/-- The `query` view (lines 28-211 of `sql/query.py`) after request parsing:
instance resolution, field validation, `query_check`, the star check,
privilege evaluation, the EXPLAIN limit override, `filter_sql`, then
execution, masking and audit logging.  `limit_num0` is the requested limit
(it is passed to the privilege evaluator, whose answer is `env.privLimit`). -/
def queryCore (instance_name sql_content db_name : Option String)
    (limit_num0 : Int) (env : Env) : ApiResult × List Event :=
  if env.instanceFound = false then
    ({ status := 1, msg := "你所在组未关联该实例", data := .empty }, [])
  else if sql_content.isNone || db_name.isNone || instance_name.isNone then
    ({ status := 1, msg := "页面提交参数可能为空", data := .empty }, [])
  else if env.badQuery then
    ({ status := 1, msg := env.checkMsg, data := .empty },
     [Event.queryCheckCalled])
  else if env.hasStar && env.disableStar then
    ({ status := 1, msg := env.checkMsg, data := .empty },
     [Event.queryCheckCalled])
  else if env.privStatus ≠ 0 then
    ({ status := env.privStatus, msg := env.privMsg, data := .empty },
     [Event.queryCheckCalled, Event.privCheckCalled])
  else
    let limit_num := if isExplain env.filteredSql then 0 else env.privLimit
    let sql2 := env.filterSql env.filteredSql limit_num
    match execAndLog sql2 limit_num "online_query" env with
    | (res, evs) =>
      (res, [Event.queryCheckCalled, Event.privCheckCalled,
             Event.filterSqlCalled env.filteredSql limit_num] ++ evs)

/-- The `query_download` view (lines 213-388) after request parsing.  It
repeats the `query` pipeline, but after `filter_sql` it overwrites `limit_num`
with `config.get("download_limit")` and applies `replace_limit` with that
ceiling (lines 280-283); execution then receives the download ceiling, and
the audit record is tagged `download_query`. -/
def queryDownloadCore (instance_name sql_content db_name : Option String)
    (limit_num0 : Int) (env : Env) : ApiResult × List Event :=
  if env.instanceFound = false then
    ({ status := 1, msg := "你所在组未关联该实例", data := .empty }, [])
  else if sql_content.isNone || db_name.isNone || instance_name.isNone then
    ({ status := 1, msg := "页面提交参数可能为空", data := .empty }, [])
  else if env.badQuery then
    ({ status := 1, msg := env.checkMsg, data := .empty },
     [Event.queryCheckCalled])
  else if env.hasStar && env.disableStar then
    ({ status := 1, msg := env.checkMsg, data := .empty },
     [Event.queryCheckCalled])
  else if env.privStatus ≠ 0 then
    ({ status := env.privStatus, msg := env.privMsg, data := .empty },
     [Event.queryCheckCalled, Event.privCheckCalled])
  else
    let limit_num := if isExplain env.filteredSql then 0 else env.privLimit
    let sql2 := env.filterSql env.filteredSql limit_num
    let limit_num2 := env.downloadLimit
    let sql3 := env.replaceLimitFn sql2 limit_num2
    match execAndLog sql3 limit_num2 "download_query" env with
    | (res, evs) =>
      (res, [Event.queryCheckCalled, Event.privCheckCalled,
             Event.filterSqlCalled env.filteredSql limit_num,
             Event.replaceLimitCalled sql2 limit_num2] ++ evs)

/-- The raw request fields the views read before any structured handling. -/
structure RawRequest where
  instance_name : Option String := none
  sql_content : Option String := none
  db_name : Option String := none
  /-- The raw string value of `limit_num`, absent when not supplied. -/
  limit_num : Option String := none

/-- The `query` view including request parsing: line 38 runs
`int(request.POST.get("limit_num", 0))` before `result` is even constructed,
so a parse failure escapes the view unhandled — modelled as `none`. -/
def queryView (req : RawRequest) (env : Env) : Option (ApiResult × List Event) :=
  match req.limit_num with
  | none => some (queryCore req.instance_name req.sql_content req.db_name 0 env)
  | some s =>
    match pyInt s with
    | none => none
    | some n =>
      some (queryCore req.instance_name req.sql_content req.db_name n env)

/-- The `query_download` view including request parsing (line 226), likewise
raising out of the view on an unparseable `limit_num`. -/
def queryDownloadView (req : RawRequest) (env : Env) :
    Option (ApiResult × List Event) :=
  match req.limit_num with
  | none =>
    some (queryDownloadCore req.instance_name req.sql_content req.db_name 0 env)
  | some s =>
    match pyInt s with
    | none => none
    | some n =>
      some (queryDownloadCore req.instance_name req.sql_content req.db_name n env)

/-- A SQL statement abstracted to its body and its optional `LIMIT` clause,
used to state what the download path's limit rewrite does. -/
structure SqlStmt where
  body : String
  limitClause : Option Int
deriving DecidableEq, Repr

/-- Modelled from the spec: the helper `replace_limit` of
`sql/utils/download_help.py` is not among the provided sources; per the spec
the download path "rewrites any pre-existing limit clause to that ceiling",
so `replace_limit` sets the statement's limit clause to the given ceiling. -/
def replace_limit (s : SqlStmt) (n : Int) : SqlStmt :=
  { s with limitClause := some n }

/-- A baseline oracle used by the concrete test environments below: instance
visible, clean checks, privilege limit 10, no masking, session id 7, a
successful execution of 37 affected rows. -/
def envBase : Env where
  instanceFound := true
  badQuery := false
  checkMsg := "bad"
  hasStar := false
  filteredSql := "select 1"
  disableStar := false
  privStatus := 0
  privMsg := ""
  privLimit := 10
  privCheckFlag := true
  dataMasking := false
  queryCheck := false
  downloadLimit := 1000
  threadId := some 7
  filterSql := fun s _ => s
  replaceLimitFn := fun s _ => s
  execOutcome := .ok { rows := [[1], [2]], affected_rows := 37, error := none }
  maskOutcome := .ok { rows := [[0], [0]], error := none }

/-- How many `executeCalled` events of the trace carry the row limit `n`. -/
def countExecWithLimit (evs : List Event) (n : Int) : Nat :=
  evs.countP (fun e =>
    match e with
    | Event.executeCalled _ m => m == n
    | _ => false)

/-- `envBase` with an execution step that raises an exception while a
session id is present. -/
def envExecRaises : Env :=
  { envBase with execOutcome := .error "unexpected adapter failure" }

/-- `envBase` with execution returning a populated backend error. -/
def envBackendError : Env :=
  { envBase with
    execOutcome := .ok { affected_rows := 0, error := some "syntax error at line 1" } }

/-- `envBase` with masking enabled, strict mode on, and a masking run that
reports a masking error. -/
def envMaskFailStrict : Env :=
  { envBase with
    dataMasking := true, queryCheck := true,
    maskOutcome := .ok { rows := [], error := some "no masking rule" } }

/-- `envBase` with masking enabled, strict mode off, and a masking stage that
raises an unexpected exception. -/
def envMaskRaiseLoose : Env :=
  { envBase with
    dataMasking := true, queryCheck := false,
    maskOutcome := .error "masking stage blew up" }

/-- `envBase` with masking enabled and succeeding. -/
def envMaskOk : Env :=
  { envBase with dataMasking := true }

/-- `envBase` with an `EXPLAIN` statement coming out of `query_check`. -/
def envExplain : Env :=
  { envBase with filteredSql := "EXPLAIN select * from t" }

/-- `envBase` with the instance lookup failing. -/
def envNoInstance : Env :=
  { envBase with instanceFound := false }

/-- `envBase` with `query_check` flagging a bad query. -/
def envBadQuery : Env :=
  { envBase with badQuery := true }

/-- `envBase` with a wildcard statement and `disable_star` on. -/
def envStarBlocked : Env :=
  { envBase with hasStar := true, disableStar := true }

/-- `envBase` with the privilege evaluator rejecting the request. -/
def envPrivDenied : Env :=
  { envBase with privStatus := 2, privMsg := "没有查询权限" }

/-- The limit variable after the EXPLAIN override (line 85 / line 277). -/
def explainLimit (env : Env) : Int :=
  if isExplain env.filteredSql then 0 else env.privLimit

theorem maskStep_spec (env : Env) (qr : QueryResult) :
    ((maskStep env qr).2.2 = qr ∨
      ((maskStep env qr).2.2 = { qr with error := none } ∧
        pyTruthy qr.error = false)) ∧
    ((maskStep env qr).2.1 = [] ∨
      ((maskStep env qr).2.1 = [Event.maskQueryCalled] ∧
        env.dataMasking = true ∧ pyTruthy qr.error = false)) := by
  rcases hm : env.maskOutcome with m | mr
  · by_cases he : pyTruthy qr.error = true <;>
      by_cases hd : env.dataMasking = true <;>
      by_cases hq : env.queryCheck = true <;>
      simp_all [maskStep]
  · by_cases he : pyTruthy qr.error = true <;>
      by_cases hd : env.dataMasking = true <;>
      by_cases hme : pyTruthy mr.error = true <;>
      by_cases hq : env.queryCheck = true <;>
      simp_all [maskStep]

theorem maskStep_mask_mem (env : Env) (qr : QueryResult)
    (h : Event.maskQueryCalled ∈ (maskStep env qr).2.1) :
    env.dataMasking = true ∧ pyTruthy qr.error = false := by
  rcases (maskStep_spec env qr).2 with h0 | ⟨h0, hd, he⟩
  · rw [h0] at h
    simp at h
  · exact ⟨hd, he⟩

theorem maskStep_qrF_error (env : Env) (qr : QueryResult) :
    pyTruthy (maskStep env qr).2.2.error = pyTruthy qr.error := by
  rcases (maskStep_spec env qr).1 with h0 | ⟨h0, he⟩
  · rw [h0]
  · rw [h0, he]
    simp [pyTruthy]

theorem maskStep_qrF_affected (env : Env) (qr : QueryResult) :
    (maskStep env qr).2.2.affected_rows = qr.affected_rows := by
  rcases (maskStep_spec env qr).1 with h0 | ⟨h0, _⟩ <;> rw [h0]

theorem auditEffectRow_maskStep (limit_num : Int) (env : Env) (qr : QueryResult) :
    auditEffectRow limit_num (maskStep env qr).2.2 = auditEffectRow limit_num qr := by
  unfold auditEffectRow
  rw [maskStep_qrF_error, maskStep_qrF_affected]

theorem maskAndLog_events (limit_num : Int) (query_type : String) (env : Env)
    (qr : QueryResult) :
    (maskAndLog limit_num query_type env qr).2 =
      (maskStep env qr).2.1 ++
        [Event.queryLogSaved (auditEffectRow limit_num qr) query_type] := by
  unfold maskAndLog
  rw [← auditEffectRow_maskStep limit_num env qr]

theorem execAndLog_error (sqlFinal : String) (limit_num : Int)
    (query_type : String) (env : Env) (m : String)
    (h : env.execOutcome = .error m) :
    execAndLog sqlFinal limit_num query_type env =
      ({ status := 1, msg := "查询异常报错，错误信息：" ++ m, data := .empty },
       Event.connectionOpened ::
         (if pyTruthyInt env.threadId then [Event.killScheduleAdded] else []) ++
         [Event.executeCalled sqlFinal limit_num]) := by
  unfold execAndLog
  rw [h]

theorem execAndLog_ok (sqlFinal : String) (limit_num : Int)
    (query_type : String) (env : Env) (qr : QueryResult)
    (h : env.execOutcome = .ok qr) :
    execAndLog sqlFinal limit_num query_type env =
      ((maskAndLog limit_num query_type env qr).1,
       (Event.connectionOpened ::
          (if pyTruthyInt env.threadId then [Event.killScheduleAdded] else []) ++
          [Event.executeCalled sqlFinal limit_num] ++
          (if pyTruthyInt env.threadId then [Event.killScheduleDeleted] else [])) ++
         (maskAndLog limit_num query_type env qr).2) := by
  unfold execAndLog
  rw [h]

theorem queryCore_run (i s d : String) (l : Int) (env : Env)
    (h1 : env.instanceFound = true) (h2 : env.badQuery = false)
    (h3 : (env.hasStar && env.disableStar) = false) (h4 : env.privStatus = 0) :
    queryCore (some i) (some s) (some d) l env =
      ((execAndLog (env.filterSql env.filteredSql (explainLimit env))
          (explainLimit env) "online_query" env).1,
       [Event.queryCheckCalled, Event.privCheckCalled,
        Event.filterSqlCalled env.filteredSql (explainLimit env)] ++
         (execAndLog (env.filterSql env.filteredSql (explainLimit env))
           (explainLimit env) "online_query" env).2) := by
  unfold queryCore explainLimit
  simp [h1, h2, h3, h4]

theorem queryDownloadCore_run (i s d : String) (l : Int) (env : Env)
    (h1 : env.instanceFound = true) (h2 : env.badQuery = false)
    (h3 : (env.hasStar && env.disableStar) = false) (h4 : env.privStatus = 0) :
    queryDownloadCore (some i) (some s) (some d) l env =
      ((execAndLog
          (env.replaceLimitFn (env.filterSql env.filteredSql (explainLimit env))
            env.downloadLimit)
          env.downloadLimit "download_query" env).1,
       [Event.queryCheckCalled, Event.privCheckCalled,
        Event.filterSqlCalled env.filteredSql (explainLimit env),
        Event.replaceLimitCalled (env.filterSql env.filteredSql (explainLimit env))
          env.downloadLimit] ++
         (execAndLog
           (env.replaceLimitFn (env.filterSql env.filteredSql (explainLimit env))
             env.downloadLimit)
           env.downloadLimit "download_query" env).2) := by
  unfold queryDownloadCore explainLimit
  simp [h1, h2, h3, h4]

theorem maskAndLog_error_case (limit_num : Int) (query_type : String)
    (env : Env) (qr : QueryResult) (he : pyTruthy qr.error = true) :
    maskAndLog limit_num query_type env qr =
      ({ status := 1, msg := qr.error.getD "", data := .empty, sbmAdded := false },
       [Event.queryLogSaved 0 query_type]) := by
  unfold maskAndLog maskStep auditEffectRow
  simp [he]

theorem maskAndLog_no_execute (limit_num : Int) (query_type : String)
    (env : Env) (qr : QueryResult) (s' : String) (n : Int) :
    Event.executeCalled s' n ∉ (maskAndLog limit_num query_type env qr).2 := by
  rw [maskAndLog_events]
  rcases (maskStep_spec env qr).2 with h0 | ⟨h0, _, _⟩ <;> rw [h0] <;> simp

theorem maskAndLog_log_mem (limit_num : Int) (query_type : String)
    (env : Env) (qr : QueryResult) :
    Event.queryLogSaved (auditEffectRow limit_num qr) query_type ∈
      (maskAndLog limit_num query_type env qr).2 := by
  rw [maskAndLog_events]
  simp

theorem maskAndLog_log_unique (limit_num : Int) (query_type : String)
    (env : Env) (qr : QueryResult) (n : Int) (t' : String)
    (h : Event.queryLogSaved n t' ∈ (maskAndLog limit_num query_type env qr).2) :
    n = auditEffectRow limit_num qr ∧ t' = query_type := by
  rw [maskAndLog_events] at h
  rcases (maskStep_spec env qr).2 with h0 | ⟨h0, _, _⟩ <;> rw [h0] at h <;>
    simpa using h

theorem execAndLog_execute_mem (sqlFinal : String) (limit_num : Int)
    (query_type : String) (env : Env) :
    Event.executeCalled sqlFinal limit_num ∈
      (execAndLog sqlFinal limit_num query_type env).2 := by
  rcases hx : env.execOutcome with m | qr
  · rw [execAndLog_error sqlFinal limit_num query_type env m hx]
    simp
  · rw [execAndLog_ok sqlFinal limit_num query_type env qr hx]
    simp

theorem execAndLog_execute_unique (sqlFinal : String) (limit_num : Int)
    (query_type : String) (env : Env) (s' : String) (n : Int)
    (h : Event.executeCalled s' n ∈ (execAndLog sqlFinal limit_num query_type env).2) :
    s' = sqlFinal ∧ n = limit_num := by
  rcases hx : env.execOutcome with m | qr
  · rw [execAndLog_error sqlFinal limit_num query_type env m hx] at h
    by_cases ht : pyTruthyInt env.threadId = true <;> simp [ht] at h <;>
      exact ⟨h.1, h.2⟩
  · rw [execAndLog_ok sqlFinal limit_num query_type env qr hx] at h
    have hno := maskAndLog_no_execute limit_num query_type env qr s' n
    by_cases ht : pyTruthyInt env.threadId = true <;> simp [ht, hno] at h <;>
      exact ⟨h.1, h.2⟩

theorem execAndLog_log_mem (sqlFinal : String) (limit_num : Int)
    (query_type : String) (env : Env) (qr : QueryResult)
    (hx : env.execOutcome = .ok qr) :
    Event.queryLogSaved (auditEffectRow limit_num qr) query_type ∈
      (execAndLog sqlFinal limit_num query_type env).2 := by
  rw [execAndLog_ok sqlFinal limit_num query_type env qr hx]
  have := maskAndLog_log_mem limit_num query_type env qr
  simp [this]

theorem execAndLog_log_unique (sqlFinal : String) (limit_num : Int)
    (query_type : String) (env : Env) (qr : QueryResult)
    (hx : env.execOutcome = .ok qr) (n : Int) (t' : String)
    (h : Event.queryLogSaved n t' ∈ (execAndLog sqlFinal limit_num query_type env).2) :
    n = auditEffectRow limit_num qr ∧ t' = query_type := by
  rw [execAndLog_ok sqlFinal limit_num query_type env qr hx] at h
  by_cases ht : pyTruthyInt env.threadId = true <;> simp [ht] at h <;>
    exact maskAndLog_log_unique limit_num query_type env qr n t' h

theorem execAndLog_no_log (sqlFinal : String) (limit_num : Int)
    (query_type : String) (env : Env) (m : String)
    (hx : env.execOutcome = .error m) (n : Int) (t' : String) :
    Event.queryLogSaved n t' ∉ (execAndLog sqlFinal limit_num query_type env).2 := by
  rw [execAndLog_error sqlFinal limit_num query_type env m hx]
  by_cases ht : pyTruthyInt env.threadId = true <;> simp [ht]

theorem maskCalled_execAndLog (sqlFinal : String) (limit_num : Int)
    (query_type : String) (env : Env)
    (h : Event.maskQueryCalled ∈ (execAndLog sqlFinal limit_num query_type env).2) :
    env.dataMasking = true ∧
      ∃ qr, env.execOutcome = .ok qr ∧ pyTruthy qr.error = false := by
  rcases hx : env.execOutcome with m | qr
  · rw [execAndLog_error sqlFinal limit_num query_type env m hx] at h
    by_cases ht : pyTruthyInt env.threadId = true <;> simp [ht] at h
  · rw [execAndLog_ok sqlFinal limit_num query_type env qr hx] at h
    rw [maskAndLog_events] at h
    by_cases ht : pyTruthyInt env.threadId = true <;> simp [ht] at h <;>
      exact ⟨(maskStep_mask_mem env qr h).1, qr, rfl, (maskStep_mask_mem env qr h).2⟩

/-- C1: the Timeout Guard is armed exactly once and disarmed exactly once on
the success and backend-error exit paths, but on the exit path where execution
itself raises an exception the code never reaches `del_schedule` (there is no
`try/finally` around the execution step), so with session id 7 the
kill-connection schedule is registered once and never deleted, contradicting
the claim's "disarmed exactly once on every exit path". -/
theorem timeout_guard_disarm_missed_on_exception :
    ((queryCore (some "mysql01") (some "select 1") (some "sales") 10
        envExecRaises).2.count Event.killScheduleAdded = 1 ∧
     (queryCore (some "mysql01") (some "select 1") (some "sales") 10
        envExecRaises).2.count Event.killScheduleDeleted = 0 ∧
     (queryCore (some "mysql01") (some "select 1") (some "sales") 10
        envExecRaises).1.status = 1) ∧
    ((queryCore (some "mysql01") (some "select 1") (some "sales") 10
        envBase).2.count Event.killScheduleAdded = 1 ∧
     (queryCore (some "mysql01") (some "select 1") (some "sales") 10
        envBase).2.count Event.killScheduleDeleted = 1) ∧
    ((queryCore (some "mysql01") (some "select 1") (some "sales") 10
        envBackendError).2.count Event.killScheduleAdded = 1 ∧
     (queryCore (some "mysql01") (some "select 1") (some "sales") 10
        envBackendError).2.count Event.killScheduleDeleted = 1) := by
  decide

/-- C10: a `limit_num` value that is present but not parseable as an integer
(`"abc"`) makes both entry points raise out of the view while parsing the
request — before the structured `result` handling begins — so the caller
receives no structured status/message payload, whatever the rest of the
environment does. -/
theorem unparseable_limit_raises_unhandled :
    pyInt "abc" = none ∧
    (∀ env : Env,
      queryView
        { instance_name := some "mysql01", sql_content := some "select 1",
          db_name := some "sales", limit_num := some "abc" } env = none) ∧
    (∀ env : Env,
      queryDownloadView
        { instance_name := some "mysql01", sql_content := some "select 1",
          db_name := some "sales", limit_num := some "abc" } env = none) := by
  have h : pyInt "abc" = none := by decide
  exact ⟨h, fun env => by simp [queryView, h], fun env => by simp [queryDownloadView, h]⟩

/-- C7: every policy rejection — instance not visible, missing required
field, bad query verdict, wildcard with `disable_star`, privilege denial —
returns the rejection verbatim with an event trace that contains no
execution and no audit write; an invisible instance returns with an empty
trace, so the privilege evaluator is never reached. -/
theorem policy_rejection_no_execution (env : Env) (i s d : String) (l : Int) :
    (env.instanceFound = false →
      queryCore (some i) (some s) (some d) l env =
        ({ status := 1, msg := "你所在组未关联该实例", data := .empty }, []) ∧
      queryDownloadCore (some i) (some s) (some d) l env =
        ({ status := 1, msg := "你所在组未关联该实例", data := .empty }, [])) ∧
    ((queryCore (some i) none (some d) l env).1.status = 1 ∧
     (queryCore (some i) none (some d) l env).2 = [] ∧
     (queryDownloadCore (some i) none (some d) l env).1.status = 1 ∧
     (queryDownloadCore (some i) none (some d) l env).2 = []) ∧
    (env.instanceFound = true → env.badQuery = true →
      queryCore (some i) (some s) (some d) l env =
        ({ status := 1, msg := env.checkMsg, data := .empty },
         [Event.queryCheckCalled]) ∧
      queryDownloadCore (some i) (some s) (some d) l env =
        ({ status := 1, msg := env.checkMsg, data := .empty },
         [Event.queryCheckCalled])) ∧
    (env.instanceFound = true → env.badQuery = false →
      env.hasStar = true → env.disableStar = true →
      queryCore (some i) (some s) (some d) l env =
        ({ status := 1, msg := env.checkMsg, data := .empty },
         [Event.queryCheckCalled]) ∧
      queryDownloadCore (some i) (some s) (some d) l env =
        ({ status := 1, msg := env.checkMsg, data := .empty },
         [Event.queryCheckCalled])) ∧
    (env.instanceFound = true → env.badQuery = false →
      (env.hasStar && env.disableStar) = false → env.privStatus ≠ 0 →
      queryCore (some i) (some s) (some d) l env =
        ({ status := env.privStatus, msg := env.privMsg, data := .empty },
         [Event.queryCheckCalled, Event.privCheckCalled]) ∧
      queryDownloadCore (some i) (some s) (some d) l env =
        ({ status := env.privStatus, msg := env.privMsg, data := .empty },
         [Event.queryCheckCalled, Event.privCheckCalled])) := by
  refine ⟨?_, ?_, ?_, ?_, ?_⟩
  · intro hi
    constructor <;> simp [queryCore, queryDownloadCore, hi]
  · by_cases hi : env.instanceFound = false <;>
      simp [queryCore, queryDownloadCore, hi]
  · intro hi hb
    constructor <;> simp [queryCore, queryDownloadCore, hi, hb]
  · intro hi hb hs hds
    constructor <;> simp [queryCore, queryDownloadCore, hi, hb, hs, hds]
  · intro hi hb hsd hp
    constructor <;> simp [queryCore, queryDownloadCore, hi, hb, hsd, hp]

/-- Witness for C7: each rejection kind evaluated on a concrete environment. -/
theorem policy_rejection_no_execution_witness :
    (envNoInstance.instanceFound = false ∧
      queryCore (some "mysql01") (some "select 1") (some "sales") 10 envNoInstance =
        ({ status := 1, msg := "你所在组未关联该实例", data := .empty }, [])) ∧
    ((queryCore (some "mysql01") none (some "sales") 10 envBase).2 = []) ∧
    (envBadQuery.badQuery = true ∧
      queryCore (some "mysql01") (some "select 1") (some "sales") 10 envBadQuery =
        ({ status := 1, msg := "bad", data := .empty }, [Event.queryCheckCalled])) ∧
    (envStarBlocked.hasStar = true ∧ envStarBlocked.disableStar = true ∧
      queryCore (some "mysql01") (some "select 1") (some "sales") 10 envStarBlocked =
        ({ status := 1, msg := "bad", data := .empty }, [Event.queryCheckCalled])) ∧
    (envPrivDenied.privStatus = 2 ∧
      queryCore (some "mysql01") (some "select 1") (some "sales") 10 envPrivDenied =
        ({ status := 2, msg := "没有查询权限", data := .empty },
         [Event.queryCheckCalled, Event.privCheckCalled])) := by
  refine ⟨⟨rfl, ?_⟩, ?_, ⟨rfl, ?_⟩, ⟨rfl, rfl, ?_⟩, ⟨rfl, ?_⟩⟩
  · exact ((policy_rejection_no_execution envNoInstance "mysql01" "select 1"
      "sales" 10).1 rfl).1
  · exact ((policy_rejection_no_execution envBase "mysql01" "select 1"
      "sales" 10).2.1).2.1
  · exact ((policy_rejection_no_execution envBadQuery "mysql01" "select 1"
      "sales" 10).2.2.1 rfl rfl).1
  · exact ((policy_rejection_no_execution envStarBlocked "mysql01" "select 1"
      "sales" 10).2.2.2.1 rfl rfl rfl rfl).1
  · exact ((policy_rejection_no_execution envPrivDenied "mysql01" "select 1"
      "sales" 10).2.2.2.2 rfl rfl rfl (by decide)).1

/-- C8: on both entry points, the masking stage is invoked only when masking
is enabled by configuration and execution returned a `QueryResult` whose
error field is empty — a result carrying a non-empty error never reaches
`query_masking`. -/
theorem masking_only_on_clean_success (env : Env) (i s d : String) (l : Int) :
    (Event.maskQueryCalled ∈ (queryCore (some i) (some s) (some d) l env).2 →
      env.dataMasking = true ∧
        ∃ qr, env.execOutcome = .ok qr ∧ pyTruthy qr.error = false) ∧
    (Event.maskQueryCalled ∈ (queryDownloadCore (some i) (some s) (some d) l env).2 →
      env.dataMasking = true ∧
        ∃ qr, env.execOutcome = .ok qr ∧ pyTruthy qr.error = false) := by
  constructor
  · intro h
    by_cases h1 : env.instanceFound = false
    · simp [queryCore, h1] at h
    · by_cases h2 : env.badQuery = true
      · simp [queryCore, h1, h2] at h
      · by_cases h3 : (env.hasStar && env.disableStar) = true
        · simp [queryCore, h1, h2, h3] at h
        · by_cases h4 : env.privStatus = 0
          · rw [queryCore_run i s d l env (by simpa using h1) (by simpa using h2)
              (by simpa using h3) h4] at h
            simp only [List.mem_append, List.mem_cons, List.not_mem_nil,
              or_false, reduceCtorEq, false_or] at h
            exact maskCalled_execAndLog _ _ _ env h
          · simp [queryCore, h1, h2, h3, h4] at h
  · intro h
    by_cases h1 : env.instanceFound = false
    · simp [queryDownloadCore, h1] at h
    · by_cases h2 : env.badQuery = true
      · simp [queryDownloadCore, h1, h2] at h
      · by_cases h3 : (env.hasStar && env.disableStar) = true
        · simp [queryDownloadCore, h1, h2, h3] at h
        · by_cases h4 : env.privStatus = 0
          · rw [queryDownloadCore_run i s d l env (by simpa using h1)
              (by simpa using h2) (by simpa using h3) h4] at h
            simp only [List.mem_append, List.mem_cons, List.not_mem_nil,
              or_false, reduceCtorEq, false_or] at h
            exact maskCalled_execAndLog _ _ _ env h
          · simp [queryDownloadCore, h1, h2, h3, h4] at h

/-- Witness for C8: with masking enabled and a clean successful execution the
masking stage is called, and the theorem's conclusion holds there. -/
theorem masking_only_on_clean_success_witness :
    Event.maskQueryCalled ∈
      (queryCore (some "mysql01") (some "select 1") (some "sales") 10 envMaskOk).2 ∧
    (envMaskOk.dataMasking = true ∧
      ∃ qr, envMaskOk.execOutcome = .ok qr ∧ pyTruthy qr.error = false) := by
  have hmem : Event.maskQueryCalled ∈
      (queryCore (some "mysql01") (some "select 1") (some "sales") 10 envMaskOk).2 := by
    decide
  exact ⟨hmem,
    (masking_only_on_clean_success envMaskOk "mysql01" "select 1" "sales" 10).1 hmem⟩

/-- C2: on the download path, after `filter_sql` has been applied with the
privilege-derived (EXPLAIN-adjusted) limit, `limit_num` is overwritten with
the configured `download_limit`, `replace_limit` is applied with that
ceiling, execution receives the rewritten statement with the ceiling as its
row limit, and (modelled from the spec) `replace_limit` rewrites any
pre-existing limit clause to that ceiling. -/
theorem download_ceiling_overrides_privilege_limit (env : Env)
    (i s d : String) (l : Int)
    (h1 : env.instanceFound = true) (h2 : env.badQuery = false)
    (h3 : (env.hasStar && env.disableStar) = false) (h4 : env.privStatus = 0) :
    (∃ rest,
      (queryDownloadCore (some i) (some s) (some d) l env).2 =
        [Event.queryCheckCalled, Event.privCheckCalled,
         Event.filterSqlCalled env.filteredSql (explainLimit env),
         Event.replaceLimitCalled
           (env.filterSql env.filteredSql (explainLimit env)) env.downloadLimit] ++
          rest ∧
      Event.executeCalled
          (env.replaceLimitFn (env.filterSql env.filteredSql (explainLimit env))
            env.downloadLimit) env.downloadLimit ∈ rest ∧
      ∀ s' n, Event.executeCalled s' n ∈ rest → n = env.downloadLimit) ∧
    ∀ st : SqlStmt,
      (replace_limit st env.downloadLimit).limitClause = some env.downloadLimit := by
  constructor
  · refine ⟨(execAndLog
      (env.replaceLimitFn (env.filterSql env.filteredSql (explainLimit env))
        env.downloadLimit) env.downloadLimit "download_query" env).2, ?_, ?_, ?_⟩
    · rw [queryDownloadCore_run i s d l env h1 h2 h3 h4]
    · exact execAndLog_execute_mem _ _ _ env
    · intro s' n hmem
      exact (execAndLog_execute_unique _ _ _ env s' n hmem).2
  · intro st
    rfl

/-- Witness for C2: a concrete download run with privilege limit 10 and
download ceiling 1000. -/
theorem download_ceiling_overrides_privilege_limit_witness :
    (∃ rest,
      (queryDownloadCore (some "mysql01") (some "select 1") (some "sales") 10
          envBase).2 =
        [Event.queryCheckCalled, Event.privCheckCalled,
         Event.filterSqlCalled "select 1" 10,
         Event.replaceLimitCalled "select 1" 1000] ++ rest ∧
      Event.executeCalled "select 1" 1000 ∈ rest ∧
      ∀ s' n, Event.executeCalled s' n ∈ rest → n = 1000) ∧
    ∀ st : SqlStmt, (replace_limit st 1000).limitClause = some 1000 :=
  download_ceiling_overrides_privilege_limit envBase "mysql01" "select 1"
    "sales" 10 rfl rfl rfl rfl

/-- C9 counterexample: for an `EXPLAIN`-prefixed statement going through the
download path, the limit passed to execution is the download ceiling (1000),
not 0 — the claim's "the effective limit passed to execution is 0" fails on
the download entry point. -/
theorem explain_download_executes_with_ceiling :
    isExplain envExplain.filteredSql = true ∧
    countExecWithLimit
      (queryDownloadCore (some "mysql01") (some "EXPLAIN select * from t")
        (some "sales") 10 envExplain).2 0 = 0 ∧
    countExecWithLimit
      (queryDownloadCore (some "mysql01") (some "EXPLAIN select * from t")
        (some "sales") 10 envExplain).2 1000 = 1 := by
  decide

/-- C9 amended: for an `EXPLAIN`-prefixed statement, the interactive path
passes limit 0 to execution regardless of requested limit and privilege
ceiling; the download path applies `filter_sql` with limit 0 but then passes
the configured download ceiling to execution. -/
theorem explain_limit_zero_interactive_only (env : Env) (i s d : String)
    (l : Int)
    (h1 : env.instanceFound = true) (h2 : env.badQuery = false)
    (h3 : (env.hasStar && env.disableStar) = false) (h4 : env.privStatus = 0)
    (hex : isExplain env.filteredSql = true) :
    (Event.executeCalled (env.filterSql env.filteredSql 0) 0 ∈
        (queryCore (some i) (some s) (some d) l env).2 ∧
      ∀ s' n, Event.executeCalled s' n ∈
          (queryCore (some i) (some s) (some d) l env).2 → n = 0) ∧
    (Event.filterSqlCalled env.filteredSql 0 ∈
        (queryDownloadCore (some i) (some s) (some d) l env).2 ∧
      Event.executeCalled
          (env.replaceLimitFn (env.filterSql env.filteredSql 0) env.downloadLimit)
          env.downloadLimit ∈
        (queryDownloadCore (some i) (some s) (some d) l env).2 ∧
      ∀ s' n, Event.executeCalled s' n ∈
          (queryDownloadCore (some i) (some s) (some d) l env).2 →
        n = env.downloadLimit) := by
  have hl : explainLimit env = 0 := by simp [explainLimit, hex]
  constructor
  · rw [queryCore_run i s d l env h1 h2 h3 h4, hl]
    constructor
    · exact List.mem_append.mpr (Or.inr (execAndLog_execute_mem _ _ _ env))
    · intro s' n hmem
      rcases List.mem_append.mp hmem with hpre | hrest
      · simp at hpre
      · exact (execAndLog_execute_unique _ _ _ env s' n hrest).2
  · rw [queryDownloadCore_run i s d l env h1 h2 h3 h4, hl]
    refine ⟨?_, ?_, ?_⟩
    · simp
    · exact List.mem_append.mpr (Or.inr (execAndLog_execute_mem _ _ _ env))
    · intro s' n hmem
      rcases List.mem_append.mp hmem with hpre | hrest
      · simp at hpre
      · exact (execAndLog_execute_unique _ _ _ env s' n hrest).2

/-- Witness for C9 (amended): concrete `EXPLAIN` run through both paths. -/
theorem explain_limit_zero_interactive_only_witness :
    isExplain envExplain.filteredSql = true ∧
    Event.executeCalled "EXPLAIN select * from t" 0 ∈
      (queryCore (some "mysql01") (some "EXPLAIN select * from t")
        (some "sales") 10 envExplain).2 ∧
    Event.executeCalled "EXPLAIN select * from t" 1000 ∈
      (queryDownloadCore (some "mysql01") (some "EXPLAIN select * from t")
        (some "sales") 10 envExplain).2 := by
  have h := explain_limit_zero_interactive_only envExplain "mysql01"
    "EXPLAIN select * from t" "sales" 10 rfl rfl rfl rfl (by decide)
  exact ⟨by decide, h.1.1, h.2.2.1⟩

/-- C5 counterexample: requested limit 10, an `EXPLAIN` statement, a
successful execution with 37 affected rows.  The claim predicts a logged row
count of `min 10 37 = 10`, but the code first forces the limit variable to 0
for `EXPLAIN`, so the audit record stores 37 — the logged count is computed
from the effective limit at execution time, not the requested limit. -/
theorem effect_row_ignores_requested_limit :
    min (10 : Int) 37 = 10 ∧
    Event.queryLogSaved 37 "online_query" ∈
      (queryCore (some "mysql01") (some "explain select 1") (some "sales") 10
        envExplain).2 ∧
    Event.queryLogSaved 10 "online_query" ∉
      (queryCore (some "mysql01") (some "explain select 1") (some "sales") 10
        envExplain).2 := by
  decide

/-- C5 amended: the logged row count equals 0 if execution errored; else,
with `L` the effective limit at execution time (the privilege-derived limit,
forced to 0 for `EXPLAIN` statements on the interactive path; the download
ceiling on the download path), it equals the affected-row count if `L = 0`
and `min L affected` otherwise — and exactly that value is written, once, to
the audit record of the corresponding query kind. -/
theorem effect_row_uses_effective_limit (env : Env) (i s d : String) (l : Int)
    (qr : QueryResult)
    (h1 : env.instanceFound = true) (h2 : env.badQuery = false)
    (h3 : (env.hasStar && env.disableStar) = false) (h4 : env.privStatus = 0)
    (hx : env.execOutcome = .ok qr) :
    (Event.queryLogSaved
        (if pyTruthy qr.error then 0
         else if explainLimit env = 0 then qr.affected_rows
         else min (explainLimit env) qr.affected_rows) "online_query" ∈
        (queryCore (some i) (some s) (some d) l env).2 ∧
      ∀ n t, Event.queryLogSaved n t ∈
          (queryCore (some i) (some s) (some d) l env).2 →
        n = (if pyTruthy qr.error then 0
             else if explainLimit env = 0 then qr.affected_rows
             else min (explainLimit env) qr.affected_rows) ∧
          t = "online_query") ∧
    (Event.queryLogSaved
        (if pyTruthy qr.error then 0
         else if env.downloadLimit = 0 then qr.affected_rows
         else min env.downloadLimit qr.affected_rows) "download_query" ∈
        (queryDownloadCore (some i) (some s) (some d) l env).2 ∧
      ∀ n t, Event.queryLogSaved n t ∈
          (queryDownloadCore (some i) (some s) (some d) l env).2 →
        n = (if pyTruthy qr.error then 0
             else if env.downloadLimit = 0 then qr.affected_rows
             else min env.downloadLimit qr.affected_rows) ∧
          t = "download_query") := by
  constructor
  · rw [queryCore_run i s d l env h1 h2 h3 h4]
    constructor
    · exact List.mem_append.mpr (Or.inr (execAndLog_log_mem _ _ _ env qr hx))
    · intro n t hmem
      rcases List.mem_append.mp hmem with hpre | hrest
      · simp at hpre
      · exact execAndLog_log_unique _ _ _ env qr hx n t hrest
  · rw [queryDownloadCore_run i s d l env h1 h2 h3 h4]
    constructor
    · exact List.mem_append.mpr (Or.inr (execAndLog_log_mem _ _ _ env qr hx))
    · intro n t hmem
      rcases List.mem_append.mp hmem with hpre | hrest
      · simp at hpre
      · exact execAndLog_log_unique _ _ _ env qr hx n t hrest

/-- Witness for C5 (amended): effective limit 10, 37 affected rows, audit
records 10 on the interactive path and 1000-capped 37 on the download path. -/
theorem effect_row_uses_effective_limit_witness :
    envBase.execOutcome =
      .ok { rows := [[1], [2]], affected_rows := 37, error := none } ∧
    Event.queryLogSaved 10 "online_query" ∈
      (queryCore (some "mysql01") (some "select 1") (some "sales") 10 envBase).2 ∧
    Event.queryLogSaved 37 "download_query" ∈
      (queryDownloadCore (some "mysql01") (some "select 1") (some "sales") 10
        envBase).2 := by
  have h := effect_row_uses_effective_limit envBase "mysql01" "select 1"
    "sales" 10 { rows := [[1], [2]], affected_rows := 37, error := none }
    rfl rfl rfl rfl rfl
  exact ⟨rfl, h.1.1, h.2.1⟩

/-- C3: masking enabled, strict mode (`query_check`) on, and a masking stage
failure — whether `query_masking` reports a masking error or raises an
unexpected exception — make the pipeline's result status an error with no
rows in the returned data. -/
theorem masking_failure_strict_errors (env : Env) (i s d : String) (l : Int)
    (qr : QueryResult)
    (h1 : env.instanceFound = true) (h2 : env.badQuery = false)
    (h3 : (env.hasStar && env.disableStar) = false) (h4 : env.privStatus = 0)
    (hx : env.execOutcome = .ok qr) (he : pyTruthy qr.error = false)
    (hd : env.dataMasking = true) (hq : env.queryCheck = true)
    (hfail : (∃ mr, env.maskOutcome = .ok mr ∧ pyTruthy mr.error = true) ∨
             (∃ m, env.maskOutcome = .error m)) :
    (queryCore (some i) (some s) (some d) l env).1.status = 1 ∧
    ResultData.rowList (queryCore (some i) (some s) (some d) l env).1.data = [] := by
  rw [queryCore_run i s d l env h1 h2 h3 h4, execAndLog_ok _ _ _ env qr hx]
  rcases hfail with ⟨mr, hm, hme⟩ | ⟨m, hm⟩
  · simp [maskAndLog, maskStep, auditEffectRow, he, hd, hq, hm, hme,
      ResultData.rowList, show pyTruthy none = false from rfl]
  · simp [maskAndLog, maskStep, auditEffectRow, he, hd, hq, hm,
      ResultData.rowList, show pyTruthy none = false from rfl]

/-- Witness for C3: a concrete strict-mode masking failure. -/
theorem masking_failure_strict_errors_witness :
    envMaskFailStrict.dataMasking = true ∧ envMaskFailStrict.queryCheck = true ∧
    envMaskFailStrict.maskOutcome =
      .ok { rows := [], error := some "no masking rule" } ∧
    (queryCore (some "mysql01") (some "select 1") (some "sales") 10
        envMaskFailStrict).1.status = 1 ∧
    ResultData.rowList
      (queryCore (some "mysql01") (some "select 1") (some "sales") 10
        envMaskFailStrict).1.data = [] := by
  have h := masking_failure_strict_errors envMaskFailStrict "mysql01"
    "select 1" "sales" 10
    { rows := [[1], [2]], affected_rows := 37, error := none }
    rfl rfl rfl rfl rfl rfl rfl rfl
    (Or.inl ⟨{ rows := [], error := some "no masking rule" }, rfl, rfl⟩)
  exact ⟨rfl, rfl, rfl, h.1, h.2⟩

/-- C4: masking enabled, strict mode off, and a masking stage failure —
reported error or raised exception — make the pipeline clear the original
result's error field and return the original unmasked rows with success
status. -/
theorem masking_failure_loose_returns_unmasked (env : Env) (i s d : String)
    (l : Int) (qr : QueryResult)
    (h1 : env.instanceFound = true) (h2 : env.badQuery = false)
    (h3 : (env.hasStar && env.disableStar) = false) (h4 : env.privStatus = 0)
    (hx : env.execOutcome = .ok qr) (he : pyTruthy qr.error = false)
    (hd : env.dataMasking = true) (hq : env.queryCheck = false)
    (hfail : (∃ mr, env.maskOutcome = .ok mr ∧ pyTruthy mr.error = true) ∨
             (∃ m, env.maskOutcome = .error m)) :
    (queryCore (some i) (some s) (some d) l env).1.status = 0 ∧
    (queryCore (some i) (some s) (some d) l env).1.msg = "ok" ∧
    (queryCore (some i) (some s) (some d) l env).1.data =
      .fromQuery { qr with error := none } ∧
    ResultData.rowList (queryCore (some i) (some s) (some d) l env).1.data =
      qr.rows := by
  rw [queryCore_run i s d l env h1 h2 h3 h4, execAndLog_ok _ _ _ env qr hx]
  rcases hfail with ⟨mr, hm, hme⟩ | ⟨m, hm⟩
  · simp [maskAndLog, maskStep, auditEffectRow, he, hd, hq, hm, hme,
      ResultData.rowList, show pyTruthy none = false from rfl]
  · simp [maskAndLog, maskStep, auditEffectRow, he, hd, hq, hm,
      ResultData.rowList, show pyTruthy none = false from rfl]

/-- Witness for C4: a concrete non-strict masking failure (the masking stage
raises), returning the two original unmasked rows with success status. -/
theorem masking_failure_loose_returns_unmasked_witness :
    envMaskRaiseLoose.dataMasking = true ∧
    envMaskRaiseLoose.queryCheck = false ∧
    envMaskRaiseLoose.maskOutcome = .error "masking stage blew up" ∧
    (queryCore (some "mysql01") (some "select 1") (some "sales") 10
        envMaskRaiseLoose).1.status = 0 ∧
    ResultData.rowList
      (queryCore (some "mysql01") (some "select 1") (some "sales") 10
        envMaskRaiseLoose).1.data = [[1], [2]] := by
  have h := masking_failure_loose_returns_unmasked envMaskRaiseLoose "mysql01"
    "select 1" "sales" 10
    { rows := [[1], [2]], affected_rows := 37, error := none }
    rfl rfl rfl rfl rfl rfl rfl rfl (Or.inr ⟨"masking stage blew up", rfl⟩)
  exact ⟨rfl, rfl, rfl, h.1, h.2.2.2⟩

/-- C6: a query that executed but returned a populated error on the
`QueryResult` surfaces that error to the caller and still writes an audit
record with row count 0; an exception raised by execution itself (outside the
handled adapter/masking error paths) yields the generic failure result and
writes no audit record. -/
theorem backend_error_audited_exception_not (env : Env) (i s d : String)
    (l : Int)
    (h1 : env.instanceFound = true) (h2 : env.badQuery = false)
    (h3 : (env.hasStar && env.disableStar) = false) (h4 : env.privStatus = 0) :
    (∀ qr, env.execOutcome = .ok qr → pyTruthy qr.error = true →
      (queryCore (some i) (some s) (some d) l env).1.status = 1 ∧
      (queryCore (some i) (some s) (some d) l env).1.msg = qr.error.getD "" ∧
      Event.queryLogSaved 0 "online_query" ∈
        (queryCore (some i) (some s) (some d) l env).2) ∧
    (∀ m, env.execOutcome = .error m →
      (queryCore (some i) (some s) (some d) l env).1.status = 1 ∧
      (queryCore (some i) (some s) (some d) l env).1.msg =
        "查询异常报错，错误信息：" ++ m ∧
      ∀ n t, Event.queryLogSaved n t ∉
        (queryCore (some i) (some s) (some d) l env).2) := by
  constructor
  · intro qr hx he
    rw [queryCore_run i s d l env h1 h2 h3 h4, execAndLog_ok _ _ _ env qr hx,
      maskAndLog_error_case _ _ env qr he]
    refine ⟨rfl, rfl, ?_⟩
    simp
  · intro m hx
    rw [queryCore_run i s d l env h1 h2 h3 h4,
      execAndLog_error _ _ _ env m hx]
    refine ⟨rfl, rfl, ?_⟩
    intro n t hmem
    by_cases ht : pyTruthyInt env.threadId = true <;> simp [ht] at hmem

/-- Witness for C6: a concrete backend error (audited with row count 0) and a
concrete execution exception (generic failure, no audit record). -/
theorem backend_error_audited_exception_not_witness :
    envBackendError.execOutcome =
      .ok { affected_rows := 0, error := some "syntax error at line 1" } ∧
    (queryCore (some "mysql01") (some "select 1") (some "sales") 10
        envBackendError).1.status = 1 ∧
    Event.queryLogSaved 0 "online_query" ∈
      (queryCore (some "mysql01") (some "select 1") (some "sales") 10
        envBackendError).2 ∧
    envExecRaises.execOutcome = .error "unexpected adapter failure" ∧
    (queryCore (some "mysql01") (some "select 1") (some "sales") 10
        envExecRaises).1.msg =
      "查询异常报错，错误信息：" ++ "unexpected adapter failure" ∧
    Event.queryLogSaved 0 "online_query" ∉
      (queryCore (some "mysql01") (some "select 1") (some "sales") 10
        envExecRaises).2 := by
  have hA := (backend_error_audited_exception_not envBackendError "mysql01"
    "select 1" "sales" 10 rfl rfl rfl rfl).1
    { affected_rows := 0, error := some "syntax error at line 1" } rfl rfl
  have hB := (backend_error_audited_exception_not envExecRaises "mysql01"
    "select 1" "sales" 10 rfl rfl rfl rfl).2 "unexpected adapter failure" rfl
  exact ⟨rfl, hA.1, hA.2.2, rfl, hB.2.1, hB.2.2 0 "online_query"⟩

example : (queryCore (some "i") (some "q") (some "d") 10 envBase).1.status = 0 := by
  decide

example :
    (queryCore (some "i") (some "q") (some "d") 10 envBase).2 =
      [Event.queryCheckCalled, Event.privCheckCalled,
       Event.filterSqlCalled "select 1" 10, Event.connectionOpened,
       Event.killScheduleAdded, Event.executeCalled "select 1" 10,
       Event.killScheduleDeleted, Event.queryLogSaved 10 "online_query"] := by
  decide

end ArcheryQuery
